import Mathlib

/-
Shallow embedding of the trustact repository:
  - src/bank_statement_processor.py : PDF-statement row normalisation
    (parse_bank_statement), sequence-number assignment (assign_numbers) and
    invoice pagination (generate_invoice_pdf).
  - src/streamlit_app.py : the trust-audit reconciliation engine
    (expected/actual closing balances, rounded difference, verdict).
Monetary floats are modelled as rationals; Python strings as Lean strings,
with the string primitives the code uses (strip, replace, float(), string
comparison) re-implemented structurally below so that every definition
evaluates by kernel reduction.
-/

namespace Trustact

/-- Whitespace stripping from both ends of a character list, modelling
Python str.strip() (which strips ASCII/unicode whitespace). -/
def pyStrip (l : List Char) : List Char :=
  ((l.dropWhile Char.isWhitespace).reverse.dropWhile Char.isWhitespace).reverse

/-- Model of Python str.strip() on strings. -/
def strTrim (s : String) : String :=
  (pyStrip s.toList).asString

/-- Helper for stripSub: scans the list; a positive counter means we are
inside a previously matched occurrence and the character is deleted. -/
def stripSubAux (pat : List Char) : List Char → Nat → List Char
  | [], _ => []
  | _ :: cs, k + 1 => stripSubAux pat cs k
  | c :: cs, 0 =>
      if pat.isPrefixOf (c :: cs) then stripSubAux pat cs (pat.length - 1)
      else c :: stripSubAux pat cs 0

/-- Deletes every (non-overlapping, leftmost-first) occurrence of `pat`,
modelling Python str.replace(pat, ''). -/
def stripSub (pat : List Char) (l : List Char) : List Char :=
  if pat = [] then l else stripSubAux pat l 0

/-- True when `pat` occurs as a contiguous substring, modelling Python's
`pat in s` test on strings. -/
def hasSub (pat : List Char) : List Char → Bool
  | [] => pat.isPrefixOf []
  | c :: cs => pat.isPrefixOf (c :: cs) || hasSub pat cs

/-- Lexicographic comparison of character lists by code point, modelling
Python's `<=` on strings. -/
def charsLe : List Char → List Char → Bool
  | [], _ => true
  | _ :: _, [] => false
  | a :: as, b :: bs => if a = b then charsLe as bs else decide (a.toNat < b.toNat)

/-- Python string `<=` (lexicographic by code point). -/
def strLe (a b : String) : Bool :=
  charsLe a.toList b.toList

/-- Splits a character list at every occurrence of the character `c`. -/
def splitChar (c : Char) : List Char → List (List Char)
  | [] => [[]]
  | a :: as =>
      if a = c then [] :: splitChar c as
      else
        match splitChar c as with
        | [] => [[a]]
        | g :: gs => (a :: g) :: gs

/-- Decimal value of a digit list (empty list gives 0). -/
def digitsVal (l : List Char) : Nat :=
  l.foldl (fun a c => 10 * a + (c.toNat - 48)) 0

/-- True when the list is a non-empty run of decimal digits. -/
def allDigits (l : List Char) : Bool :=
  decide (l ≠ []) && l.all Char.isDigit

/-- Mantissa of a Python float literal: digits, optionally with one decimal
point; "12", "12.", "12.5" and ".5" parse, "" and "." do not. -/
def parseMant (l : List Char) : Option ℚ :=
  match splitChar '.' l with
  | [ip] => if allDigits ip then some ((digitsVal ip : ℚ)) else none
  | [ip, fp] =>
      if (ip.all Char.isDigit && fp.all Char.isDigit) && decide (ip ≠ [] ∨ fp ≠ []) then
        some ((digitsVal ip : ℚ) + (digitsVal fp : ℚ) / (10 : ℚ) ^ fp.length)
      else none
  | _ => none

/-- Exponent of a Python float literal: optionally signed digit run. -/
def parseExp (l : List Char) : Option ℤ :=
  match l with
  | '+' :: ds => if allDigits ds then some ((digitsVal ds : ℤ)) else none
  | '-' :: ds => if allDigits ds then some (-(digitsVal ds : ℤ)) else none
  | ds => if allDigits ds then some ((digitsVal ds : ℤ)) else none

/-- Unsigned part of a Python float literal: mantissa with an optional
e-exponent. -/
def pyFloatAbs (u : List Char) : Option ℚ :=
  match splitChar 'e' u with
  | [m] => parseMant m
  | [m, ex] =>
      match parseMant m, parseExp ex with
      | some q, some z => some (q * (10 : ℚ) ^ z)
      | _, _ => none
  | _ => none

/-- Model of Python float(s) on the decimal-literal fragment the statement
cells use: surrounding whitespace, an optional sign, a digit/point mantissa
and an optional e-exponent (inf/nan/underscores are outside the model).
Returns none where float() raises ValueError. -/
def pyFloat (s : String) : Option ℚ :=
  let l := (pyStrip s.toList).map Char.toLower
  match l with
  | '-' :: r => (pyFloatAbs r).map (fun q => -q)
  | '+' :: r => pyFloatAbs r
  | r => pyFloatAbs r

/-- One normalised ledger entry, with the exact fields built at
src/bank_statement_processor.py lines 111-120 ('Type' is rendered Type'
because Type is a Lean keyword). -/
structure Transaction where
  Date : String
  Particulars : String
  Type' : String
  Amount : ℚ
  Balance : String
  Classification : String
  Number : String
  Selected : Bool
deriving DecidableEq, Repr, Inhabited

/-- Python str(cell) for a possibly-None cell: str(None) is "None". -/
def pyStr : Option String → String
  | none => "None"
  | some s => s

/-- Cell access `str(row[i]).strip() if len(row) > i and row[i] else ''`:
a missing, None or empty cell gives the empty string, any other cell is
stripped of surrounding whitespace. -/
def cellStr (row : List (Option String)) (i : Nat) : String :=
  match row.getD i none with
  | none => ""
  | some s => if s = "" then "" else strTrim s

/-- Amount-cell cleaning `.replace(',', '').replace('None', '').strip()`
from src/bank_statement_processor.py lines 91-93. -/
def cleanAmount (s : String) : String :=
  (pyStrip (stripSub ("None".toList) (stripSub [','] s.toList))).asString

/-- Prefix match of the date regex (two digits, dash, two digits, dash,
four digits) used at src/bank_statement_processor.py line 83; re.match
anchors at the start only, so trailing characters are not inspected. -/
def dateMatch (s : String) : Bool :=
  match s.toList with
  | d1 :: d2 :: h1 :: m1 :: m2 :: h2 :: y1 :: y2 :: y3 :: y4 :: _ =>
      d1.isDigit && d2.isDigit && (h1 == '-') && m1.isDigit && m2.isDigit &&
        (h2 == '-') && y1.isDigit && y2.isDigit && y3.isDigit && y4.isDigit
  | _ => false

/-- Model of the per-row body of parse_bank_statement
(src/bank_statement_processor.py lines 70-120): length guard, header-text
guard, date-pattern guard, amount cleaning, and the withdrawal-first
debit/credit branch; none models a skipped (dropped) row. -/
def parse_row (row : List (Option String)) : Option Transaction :=
  if row.length < 4 then none
  else if hasSub "Date".toList (pyStr (row.getD 0 none)).toList ||
      hasSub "Particulars".toList (pyStr (row.getD 1 none)).toList then none
  else
    let date_str := cellStr row 0
    let particulars := cellStr row 1
    if dateMatch date_str then
      let withdrawals := cleanAmount (cellStr row 2)
      let deposits := cleanAmount (cellStr row 3)
      let balance := cleanAmount (cellStr row 4)
      if withdrawals ≠ "" then
        match pyFloat withdrawals with
        | some amount =>
            some ⟨date_str, particulars, "Debit", amount, balance, "Unclassified", "", false⟩
        | none => none
      else if deposits ≠ "" then
        match pyFloat deposits with
        | some amount =>
            some ⟨date_str, particulars, "Credit", amount, balance, "Unclassified", "", false⟩
        | none => none
      else none
    else none

/-- Model of parse_bank_statement over the flattened list of extracted
table rows: each row independently yields at most one Transaction. -/
def parse_bank_statement (rows : List (List (Option String))) : List Transaction :=
  rows.filterMap parse_row

/-- Decimal digit character for a value below ten. -/
def digitChar (n : Nat) : Char :=
  Char.ofNat (48 + n)

/-- Fuel-indexed decimal rendering of a natural number (the fuel is an
upper bound on the digit count, always supplied as n + 1). -/
def natDigitsAux : Nat → Nat → List Char
  | 0, _ => []
  | fuel + 1, n =>
      if n < 10 then [digitChar n]
      else natDigitsAux fuel (n / 10) ++ [digitChar (n % 10)]

/-- Decimal rendering of a natural number. -/
def natDigitStr (n : Nat) : List Char :=
  natDigitsAux (n + 1) n

/-- Python format spec 04d: decimal rendering left-padded with zeros to at
least four characters. -/
def pad4 (n : Nat) : String :=
  (List.replicate (4 - (natDigitStr n).length) '0' ++ natDigitStr n).asString

/-- The number format of src/bank_statement_processor.py line 131: the
first three characters of the classification upper-cased, a dash, and the
zero-padded sequence value. -/
def fmtNumber (c : String) (n : Nat) : String :=
  ((c.toList.take 3).map Char.toUpper).asString ++ "-" ++ pad4 n

/-- The rows of classification `c`, as (original position, Date) pairs:
this is the part of the filtered frame `df[df['Classification'] == c]`
that assign_numbers consumes (its pandas index labels and its sort key). -/
def keyedRows (c : String) : List Transaction → Nat → List (Nat × String)
  | [], _ => []
  | t :: ts, i =>
      if t.Classification = c then (i, t.Date) :: keyedRows c ts (i + 1)
      else keyedRows c ts (i + 1)

/-- Stable insertion of one element into a list sorted ascending on a
string key. -/
def insertLe {α : Type} (key : α → String) (x : α) : List α → List α
  | [] => [x]
  | y :: ys => if strLe (key x) (key y) then x :: y :: ys else y :: insertLe key x ys

/-- Stable ascending sort on a string key, modelling
`sort_values('Date')`: Python compares the Date strings lexicographically
by code point. -/
def sortLe {α : Type} (key : α → String) : List α → List α
  | [] => []
  | x :: xs => insertLe key x (sortLe key xs)

/-- The filtered rows sorted ascending by the Date string
(lines 127-128 of src/bank_statement_processor.py). -/
def sortedKeyed (df : List Transaction) (c : String) : List (Nat × String) :=
  sortLe (fun p => p.2) (keyedRows c df 0)

/-- The write set of assign_numbers: for the idx-th row of the sorted
filtered frame, position i receives number start + idx
(line 131 of src/bank_statement_processor.py). -/
def mkAssign (df : List Transaction) (c : String) (start : Nat) : List (Nat × String) :=
  (sortedKeyed df c).enum.map (fun q => (q.2.1, fmtNumber c (start + q.1)))

/-- Applies the write set: `df.at[i, 'Number'] = v` for each pair (i, v),
every other cell untouched. -/
def setNumbers (a : List (Nat × String)) : List Transaction → Nat → List Transaction
  | [], _ => []
  | t :: ts, i =>
      (match a.lookup i with
       | some v => { t with Number := v }
       | none => t) :: setNumbers a ts (i + 1)

/-- Model of assign_numbers (src/bank_statement_processor.py lines
125-133): filter the ledger to one classification, sort those rows by the
Date string, and overwrite their Number fields with sequentially formatted
values starting at `start`. -/
def assign_numbers (df : List Transaction) (c : String) (start : Nat) : List Transaction :=
  setNumbers (mkAssign df c start) df 0

/-- Fuel-indexed 20-row pagination (the fuel is the list length; each
step consumes at least one element). -/
def paginateAux : Nat → List Transaction → List (List Transaction)
  | 0, _ => []
  | _, [] => []
  | fuel + 1, l => l.take 20 :: paginateAux fuel (l.drop 20)

/-- The page slices `invoices.iloc[k : k + 20]` for k = 0, 20, 40, ... of
src/bank_statement_processor.py line 173-174. -/
def paginate (l : List Transaction) : List (List Transaction) :=
  paginateAux l.length l

/-- Model of the data layout of generate_invoice_pdf (lines 161-174 of
src/bank_statement_processor.py): the selected transactions sorted by the
Date string, then cut into pages of 20 records. -/
def invoicePages (selected : List Transaction) : List (List Transaction) :=
  paginate (sortLe Transaction.Date selected)

/-- Reads a DD-MM-YYYY string into (day, month, year); none when the
string is not exactly ten characters of that shape. -/
def parseDMY (s : String) : Option (Nat × Nat × Nat) :=
  match s.toList with
  | [d1, d2, h1, m1, m2, h2, y1, y2, y3, y4] =>
      if (d1.isDigit && d2.isDigit && m1.isDigit && m2.isDigit && y1.isDigit &&
          y2.isDigit && y3.isDigit && y4.isDigit) && ((h1 == '-') && (h2 == '-')) then
        some (digitsVal [d1, d2], digitsVal [m1, m2], digitsVal [y1, y2, y3, y4])
      else none
  | _ => none

/-- Chronological strict order on DD-MM-YYYY date strings (year, then
month, then day); this is the calendar order the specification means by
"date order". -/
def chronoLT (a b : String) : Bool :=
  match parseDMY a, parseDMY b with
  | some (d1, m1, y1), some (d2, m2, y2) =>
      decide (y1 < y2 ∨ (y1 = y2 ∧ (m1 < m2 ∨ (m1 = m2 ∧ d1 < d2))))
  | _, _ => false

/-- One row of an imported ledger CSV, restricted to the three numeric
columns the reconciliation engine of src/streamlit_app.py reads. -/
structure CsvRow where
  Inflow : ℚ
  Outflow : ℚ
  Net : ℚ
deriving DecidableEq, Repr, Inhabited

/-- Column sum master['Inflow'].sum(). -/
def sumInflow (l : List CsvRow) : ℚ :=
  (l.map CsvRow.Inflow).sum

/-- Column sum master['Outflow'].sum(). -/
def sumOutflow (l : List CsvRow) : ℚ :=
  (l.map CsvRow.Outflow).sum

/-- Column sum df['Net'].sum(). -/
def sumNet (l : List CsvRow) : ℚ :=
  (l.map CsvRow.Net).sum

/-- total_opening = opn_bank + opn_cash (src/streamlit_app.py line 24). -/
def total_opening (opn_bank opn_cash : ℚ) : ℚ :=
  opn_bank + opn_cash

/-- expected_closing = total_opening + total_inflow - total_outflow over
the concatenated master frame (src/streamlit_app.py lines 44-50). -/
def expected_closing (opn_bank opn_cash : ℚ) (dfBank dfCash : List CsvRow) : ℚ :=
  total_opening opn_bank opn_cash + sumInflow (dfBank ++ dfCash) - sumOutflow (dfBank ++ dfCash)

/-- current_bank = opn_bank + df_bank['Net'].sum() (line 53). -/
def current_bank (opn_bank : ℚ) (dfBank : List CsvRow) : ℚ :=
  opn_bank + sumNet dfBank

/-- current_cash = opn_cash + df_cash['Net'].sum() (line 54). -/
def current_cash (opn_cash : ℚ) (dfCash : List CsvRow) : ℚ :=
  opn_cash + sumNet dfCash

/-- actual_closing = current_bank + current_cash (line 55). -/
def actual_closing (opn_bank opn_cash : ℚ) (dfBank dfCash : List CsvRow) : ℚ :=
  current_bank opn_bank dfBank + current_cash opn_cash dfCash

/-- Python round(x, 2) modelled on rationals: round to the nearest
hundredth. -/
def round2 (q : ℚ) : ℚ :=
  (round (q * 100) : ℚ) / 100

/-- diff = round(actual_closing - expected_closing, 2)
(src/streamlit_app.py line 63). -/
def diff (opn_bank opn_cash : ℚ) (dfBank dfCash : List CsvRow) : ℚ :=
  round2 (actual_closing opn_bank opn_cash dfBank dfCash -
    expected_closing opn_bank opn_cash dfBank dfCash)

/-- The two reconciliation outcomes of src/streamlit_app.py lines 65-69. -/
inductive Verdict where
  | Reconciled : Verdict
  | Discrepant : Verdict
deriving DecidableEq, Repr

/-- The branch on diff == 0 at src/streamlit_app.py line 65: the verdict
is a returned value, the reconciliation is a total function. -/
def verdict (opn_bank opn_cash : ℚ) (dfBank dfCash : List CsvRow) : Verdict :=
  if diff opn_bank opn_cash dfBank dfCash = 0 then Verdict.Reconciled else Verdict.Discrepant

/-- Written from the specification's words, for comparison with
actual_closing: "sum over sources of (opening_balance[source] +
net_of_source), where net_of_source = inflow[source] − outflow[source]
computed directly from that source's transactions". -/
def actualClosingSpec (opn_bank opn_cash : ℚ) (dfBank dfCash : List CsvRow) : ℚ :=
  (opn_bank + (sumInflow dfBank - sumOutflow dfBank)) +
    (opn_cash + (sumInflow dfCash - sumOutflow dfCash))

/-- A ledger row with the date 02-01-2024 (2 January 2024), classified
Invoice. -/
def txnJan2 : Transaction :=
  ⟨"02-01-2024", "donation a", "Credit", 1, "", "Invoice", "", false⟩

/-- A ledger row with the date 01-02-2024 (1 February 2024), classified
Invoice: chronologically later than txnJan2, but lexicographically
smaller as a DD-MM-YYYY string. -/
def txnFeb1 : Transaction :=
  ⟨"01-02-2024", "donation b", "Credit", 1, "", "Invoice", "", false⟩

/-- How each entry of the result of assign_numbers relates to the entry at
the same position of the input: every field except Number is unchanged,
and Number too is unchanged off the given classification. -/
def numberFrame (c : String) (t t' : Transaction) : Prop :=
  t'.Date = t.Date ∧ t'.Particulars = t.Particulars ∧ t'.Type' = t.Type' ∧
    t'.Amount = t.Amount ∧ t'.Balance = t.Balance ∧
    t'.Classification = t.Classification ∧ t'.Selected = t.Selected ∧
    (t.Classification ≠ c → t'.Number = t.Number)

theorem lookup_mem (l : List (Nat × String)) (j : Nat) (v : String)
    (h : l.lookup j = some v) : (j, v) ∈ l := by
  induction l with
  | nil => simp [List.lookup] at h
  | cons p t ih =>
      obtain ⟨k, w⟩ := p
      rw [List.lookup] at h
      rcases hk : (j == k) with _ | _
      · rw [hk] at h
        exact List.mem_cons_of_mem _ (ih h)
      · rw [hk] at h
        obtain rfl : w = v := by simpa using h
        obtain rfl : j = k := by simpa using hk
        exact List.mem_cons_self _ _

theorem mem_insertLe {α : Type} (key : α → String) (x a : α) (l : List α) :
    a ∈ insertLe key x l ↔ a = x ∨ a ∈ l := by
  induction l with
  | nil => simp [insertLe]
  | cons y ys ih =>
      simp only [insertLe]
      split
      · simp
      · simp only [List.mem_cons, ih]
        tauto

theorem mem_sortLe {α : Type} (key : α → String) (a : α) (l : List α) :
    a ∈ sortLe key l ↔ a ∈ l := by
  induction l with
  | nil => simp [sortLe]
  | cons x xs ih => simp [sortLe, mem_insertLe, ih]

theorem keyedRows_mem (c : String) (df : List Transaction) (i j : Nat) (d : String)
    (h : (j, d) ∈ keyedRows c df i) :
    ∃ k, k < df.length ∧ j = i + k ∧ (df.getD k default).Classification = c := by
  induction df generalizing i with
  | nil => simp [keyedRows] at h
  | cons t ts ih =>
      rw [keyedRows] at h
      by_cases hc : t.Classification = c
      · rw [if_pos hc] at h
        rcases List.mem_cons.mp h with h1 | h1
        · obtain ⟨rfl, rfl⟩ : j = i ∧ d = t.Date := by simpa using h1
          exact ⟨0, by simp, by simp, by simpa using hc⟩
        · obtain ⟨k, hk, rfl, hcl⟩ := ih (i + 1) h1
          exact ⟨k + 1, by simpa using hk, by omega, by simpa using hcl⟩
      · rw [if_neg hc] at h
        obtain ⟨k, hk, rfl, hcl⟩ := ih (i + 1) h
        exact ⟨k + 1, by simpa using hk, by omega, by simpa using hcl⟩

theorem mkAssign_mem (df : List Transaction) (c : String) (n j : Nat) (v : String)
    (h : (j, v) ∈ mkAssign df c n) :
    j < df.length ∧ (df.getD j default).Classification = c := by
  simp only [mkAssign] at h
  obtain ⟨q, hq, hqe⟩ := List.mem_map.mp h
  obtain rfl : j = q.2.1 := by
    have := congrArg Prod.fst hqe
    simpa using this.symm
  have hq2 : q.2 ∈ sortedKeyed df c := by
    have hget := List.mem_enum_iff_getElem?.mp hq
    exact List.getElem?_mem hget
  rw [sortedKeyed, mem_sortLe] at hq2
  obtain ⟨k, hk, hjk, hcl⟩ := keyedRows_mem c df 0 q.2.1 q.2.2 hq2
  obtain rfl : q.2.1 = k := by omega
  exact ⟨hk, hcl⟩

theorem setNumbers_frame (c : String) (a : List (Nat × String)) :
    ∀ (df : List Transaction) (i : Nat),
    (∀ j v, (j, v) ∈ a → i ≤ j → (df.getD (j - i) default).Classification = c) →
    List.Forall₂ (numberFrame c) df (setNumbers a df i) := by
  intro df
  induction df with
  | nil => intro i _; exact List.Forall₂.nil
  | cons t ts ih =>
      intro i hyp
      rw [setNumbers]
      refine List.Forall₂.cons ?_ ?_
      · rcases hl : a.lookup i with _ | v
        · exact ⟨rfl, rfl, rfl, rfl, rfl, rfl, rfl, fun _ => rfl⟩
        · have hmem := lookup_mem a i v hl
          have hcl : t.Classification = c := by
            have := hyp i v hmem (Nat.le_refl i)
            simpa using this
          exact ⟨rfl, rfl, rfl, rfl, rfl, rfl, rfl, fun hne => absurd hcl hne⟩
      · refine ih (i + 1) ?_
        intro j v hm hij
        have h1 := hyp j v hm (by omega)
        have h2 : j - i = (j - (i + 1)) + 1 := by omega
        rw [h2] at h1
        simpa using h1

theorem keyedRows_setNumbers (c : String) (a : List (Nat × String)) :
    ∀ (df : List Transaction) (i j : Nat),
    keyedRows c (setNumbers a df j) i = keyedRows c df i := by
  intro df
  induction df with
  | nil => intro i j; rfl
  | cons t ts ih =>
      intro i j
      rw [setNumbers]
      rcases a.lookup j with _ | v <;>
        · rw [keyedRows, keyedRows]
          by_cases hc : t.Classification = c <;> simp [hc, ih]

theorem setNumbers_idem (a : List (Nat × String)) :
    ∀ (df : List Transaction) (i : Nat),
    setNumbers a (setNumbers a df i) i = setNumbers a df i := by
  intro df
  induction df with
  | nil => intro i; rfl
  | cons t ts ih =>
      intro i
      rw [setNumbers, setNumbers]
      rcases hl : a.lookup i with _ | v <;> simp [setNumbers, hl, ih]

theorem setNumbers_empty (df : List Transaction) (i : Nat) :
    setNumbers [] df i = df := by
  induction df generalizing i with
  | nil => rfl
  | cons t ts ih => rw [setNumbers]; simp [List.lookup, ih]

theorem keyedRows_of_no_match (c : String) (df : List Transaction)
    (h : ∀ t ∈ df, t.Classification ≠ c) : ∀ i, keyedRows c df i = [] := by
  induction df with
  | nil => intro i; rfl
  | cons t ts ih =>
      intro i
      rw [keyedRows, if_neg (h t (List.mem_cons_self t ts))]
      exact ih (fun u hu => h u (List.mem_cons_of_mem t hu)) (i + 1)

/-- C5: assign_numbers is idempotent for a fixed classification and start
number: the second run filters and sorts on Classification and Date, both
untouched by the first run, so it recomputes and rewrites the very same
numbers. -/
theorem assign_numbers_idempotent (df : List Transaction) (c : String) (start : Nat) :
    assign_numbers (assign_numbers df c start) c start = assign_numbers df c start := by
  simp only [assign_numbers]
  have h1 : mkAssign (setNumbers (mkAssign df c start) df 0) c start = mkAssign df c start := by
    simp only [mkAssign, sortedKeyed, keyedRows_setNumbers]
  rw [h1, setNumbers_idem]

/-- C9: calling assign_numbers with a classification that matches no
transaction leaves the ledger unchanged (and, being a total function,
raises nothing). -/
theorem assign_numbers_no_match (df : List Transaction) (c : String) (start : Nat)
    (h : ∀ t ∈ df, t.Classification ≠ c) :
    assign_numbers df c start = df := by
  simp only [assign_numbers]
  have h1 : mkAssign df c start = [] := by
    simp only [mkAssign, sortedKeyed, keyedRows_of_no_match c df h 0]
    rfl
  rw [h1, setNumbers_empty]

/-- C9 witness: on a one-row ledger classified Unclassified, assigning
Invoice numbers is a no-op. -/
theorem assign_numbers_no_match_witness :
    (∀ t ∈ [txnJan2], t.Classification ≠ "Expense") ∧
      assign_numbers [txnJan2] "Expense" 7 = [txnJan2] :=
  ⟨by decide, assign_numbers_no_match [txnJan2] "Expense" 7 (by decide)⟩

/-- C10: assign_numbers only writes the Number field, and only on rows of
the given classification; positionally, every other field of every row is
returned unchanged, and the Number of a row of a different classification
is unchanged too. -/
theorem assign_numbers_frame (df : List Transaction) (c : String) (start : Nat) :
    List.Forall₂ (numberFrame c) df (assign_numbers df c start) := by
  simp only [assign_numbers]
  refine setNumbers_frame c (mkAssign df c start) df 0 ?_
  intro j v hm _
  obtain ⟨_, hcl⟩ := mkAssign_mem df c start j v hm
  simpa using hcl

/-- C2 (the claim fails on the code): the Date field is a DD-MM-YYYY
string and assign_numbers sorts those strings lexicographically, which
orders by day first; on a ledger holding 2 January 2024 and 1 February
2024 the chronologically earlier transaction receives the larger sequence
number. -/
theorem assign_numbers_not_chronological :
    chronoLT txnJan2.Date txnFeb1.Date = true ∧
      (assign_numbers [txnJan2, txnFeb1] "Invoice" 1).map Transaction.Number =
        ["INV-0002", "INV-0001"] := by
  constructor
  · decide
  · decide

/-- C8 (the claim fails on the code): generate_invoice_pdf sorts the
selected transactions by the same lexicographic string order, so the single
output page lists 1 February 2024 before the chronologically earlier
2 January 2024. -/
theorem invoicePages_not_chronological :
    chronoLT txnJan2.Date txnFeb1.Date = true ∧
      invoicePages [txnJan2, txnFeb1] = [[txnFeb1, txnJan2]] := by
  constructor
  · decide
  · decide

theorem pyFloat_empty : pyFloat "" = none := by decide

/-- A raw table row whose withdrawal cell (100) and deposit cell (50) are
both populated with parseable numbers. -/
def rowBoth : List (Option String) :=
  [some "01-01-2024", some "cash paid", some "100", some "50", some "500"]

/-- A raw table row whose date cell matches the digit pattern but is
calendar-invalid (month 99). -/
def rowBadCal : List (Option String) :=
  [some "99-99-9999", some "entry", none, some "100", some "500"]

/-- A raw table row whose date cell is in ISO order and fails the
DD-MM-YYYY pattern. -/
def rowIso : List (Option String) :=
  [some "2024-01-01", some "entry", none, some "100", none]

/-- A raw table row whose withdrawal cell carries a negative numeral. -/
def rowNeg : List (Option String) :=
  [some "01-01-2024", some "reversal", some "-100", none, none]

/-- A raw table row with a single positive deposit cell. -/
def rowPos : List (Option String) :=
  [some "01-01-2024", some "donation", none, some "100", none]

/-- The transaction parse_row extracts from rowNeg. -/
def txnNeg : Transaction :=
  ⟨"01-01-2024", "reversal", "Debit", -100, "", "Unclassified", "", false⟩

/-- The transaction parse_row extracts from rowPos. -/
def txnPos : Transaction :=
  ⟨"01-01-2024", "donation", "Credit", 100, "", "Unclassified", "", false⟩

/-- C4 (the claim fails on the code): on a row where both amount cells
parse, parse_bank_statement does not drop the row; the withdrawal branch
wins and a Debit transaction is produced. -/
theorem parse_row_keeps_ambiguous_row :
    pyFloat (cleanAmount (cellStr rowBoth 2)) = some 100 ∧
      pyFloat (cleanAmount (cellStr rowBoth 3)) = some 50 ∧
      (parse_row rowBoth).isSome = true := by
  refine ⟨by decide, by decide, by decide⟩

/-- C4 amended: when both the withdrawal and the deposit cell parse as
numbers, the row is not dropped in favour of neither; any transaction the
normalizer produces from it is a Debit carrying the withdrawal amount
(withdrawal-first precedence at src/bank_statement_processor.py line 96). -/
theorem parse_row_both_cells (row : List (Option String)) (a b : ℚ) (t : Transaction)
    (ha : pyFloat (cleanAmount (cellStr row 2)) = some a)
    (hb : pyFloat (cleanAmount (cellStr row 3)) = some b)
    (ht : parse_row row = some t) :
    t.Type' = "Debit" ∧ t.Amount = a := by
  have hw : cleanAmount (cellStr row 2) ≠ "" := by
    intro he
    rw [he, pyFloat_empty] at ha
    exact Option.noConfusion ha
  simp only [parse_row] at ht
  split at ht
  · exact Option.noConfusion ht
  · split at ht
    · exact Option.noConfusion ht
    · split at ht
      · split at ht
        next amount heq =>
          obtain rfl := Option.some.inj ht
          obtain rfl : a = amount := Option.some.inj (ha.symm.trans heq)
          exact ⟨rfl, rfl⟩
        next heq => exact Option.noConfusion ht
      · exact Option.noConfusion ht

/-- C4 witness: on rowBoth the theorem applies and identifies the produced
transaction as the Debit of the withdrawal amount 100. -/
theorem parse_row_both_cells_witness :
    parse_row rowBoth =
        some ⟨"01-01-2024", "cash paid", "Debit", 100, "500", "Unclassified", "", false⟩ ∧
      ((⟨"01-01-2024", "cash paid", "Debit", 100, "500", "Unclassified", "", false⟩ :
          Transaction).Type' = "Debit" ∧
        (⟨"01-01-2024", "cash paid", "Debit", 100, "500", "Unclassified", "", false⟩ :
          Transaction).Amount = 100) :=
  ⟨by decide,
    parse_row_both_cells rowBoth 100 50 _ (by decide) (by decide) (by decide)⟩

/-- C6 (the claim fails on the code): the date cell 99-99-9999 is
calendar-invalid (its month field reads 99), yet the row passes the
digit-pattern check and a transaction is produced rather than dropped. -/
theorem parse_row_keeps_invalid_calendar_date :
    parseDMY "99-99-9999" = some (99, 99, 9999) ∧
      (parse_row rowBadCal).isSome = true := by
  refine ⟨by decide, by decide⟩

/-- C6 amended: a row whose date cell fails the prefix digit-pattern
(two digits, dash, two digits, dash, four digits) is silently dropped —
the check is that regex prefix match only, with no calendar validation. -/
theorem parse_row_drops_bad_date_pattern (row : List (Option String))
    (h : dateMatch (cellStr row 0) = false) :
    parse_row row = none := by
  simp only [parse_row]
  split
  · rfl
  · split
    · rfl
    · simp [h]

/-- C6 witness: an ISO-ordered date cell fails the pattern and the row is
dropped. -/
theorem parse_row_drops_bad_date_pattern_witness :
    dateMatch (cellStr rowIso 0) = false ∧ parse_row rowIso = none :=
  ⟨by decide, parse_row_drops_bad_date_pattern rowIso (by decide)⟩

/-- C7 (the claim fails on the code): a withdrawal cell holding -100
parses, no non-negativity check exists, and the produced transaction has
a negative Amount. -/
theorem parse_row_negative_amount :
    parse_row rowNeg = some txnNeg ∧ txnNeg.Amount < 0 := by
  refine ⟨by decide, ?_⟩
  show (-100 : ℚ) < 0
  norm_num

/-- C7 amended: the Amount of a produced transaction is exactly the
parsed value of the cell that won the withdrawal/deposit branch, so it is
non-negative whenever neither amount cell parses to a negative number;
the normalizer itself never checks the sign. -/
theorem parse_row_amount_nonneg (row : List (Option String)) (t : Transaction)
    (ht : parse_row row = some t)
    (h2 : ∀ q : ℚ, pyFloat (cleanAmount (cellStr row 2)) = some q → 0 ≤ q)
    (h3 : ∀ q : ℚ, pyFloat (cleanAmount (cellStr row 3)) = some q → 0 ≤ q) :
    0 ≤ t.Amount := by
  simp only [parse_row] at ht
  split at ht
  · exact Option.noConfusion ht
  · split at ht
    · exact Option.noConfusion ht
    · split at ht
      · split at ht
        · split at ht
          next amount heq =>
            obtain rfl := Option.some.inj ht
            exact h2 amount heq
          next heq => exact Option.noConfusion ht
        · split at ht
          · split at ht
            next amount heq =>
              obtain rfl := Option.some.inj ht
              exact h3 amount heq
            next heq => exact Option.noConfusion ht
          · exact Option.noConfusion ht
      · exact Option.noConfusion ht

/-- C7 witness: on rowPos the produced transaction is the Credit of 100
and the theorem yields its non-negativity. -/
theorem parse_row_amount_nonneg_witness :
    parse_row rowPos = some txnPos ∧ 0 ≤ txnPos.Amount :=
  ⟨by decide,
    parse_row_amount_nonneg rowPos txnPos (by decide)
      (fun q hq => by
        rw [show pyFloat (cleanAmount (cellStr rowPos 2)) = none from by decide] at hq
        exact Option.noConfusion hq)
      (fun q hq => by
        rw [show pyFloat (cleanAmount (cellStr rowPos 3)) = some 100 from by decide] at hq
        obtain rfl := Option.some.inj hq
        norm_num)⟩

/-- The bank CSV row of the C1 counterexample: its reported Net (5)
disagrees with its Inflow minus Outflow (10). -/
def bankRowC1 : CsvRow :=
  ⟨10, 0, 5⟩

/-- C1 (the claim fails on the code): the engine takes each source's net
from the CSV's Net column (df['Net'].sum()), not from the transactions'
Inflow and Outflow; on a row whose Net column disagrees with
Inflow - Outflow the two readings differ (code gives 5, the claim's
formula gives 10). -/
theorem actual_closing_uses_net_column :
    actual_closing 0 0 [bankRowC1] [] ≠ actualClosingSpec 0 0 [bankRowC1] [] := by
  norm_num [actual_closing, actualClosingSpec, current_bank, current_cash,
    sumNet, sumInflow, sumOutflow, bankRowC1]

/-- C1 amended: expected_closing is total opening plus total inflow minus
total outflow over both sources, and actual_closing is the sum over
sources of that source's opening balance plus the sum of its reported Net
column. -/
theorem reconciliation_closing_formulas (opnB opnC : ℚ) (dfBank dfCash : List CsvRow) :
    expected_closing opnB opnC dfBank dfCash =
        (opnB + opnC) + (sumInflow dfBank + sumInflow dfCash) -
          (sumOutflow dfBank + sumOutflow dfCash) ∧
      actual_closing opnB opnC dfBank dfCash =
        (opnB + sumNet dfBank) + (opnC + sumNet dfCash) := by
  constructor
  · simp only [expected_closing, total_opening, sumInflow, sumOutflow,
      List.map_append, List.sum_append]
  · rfl

/-- C3: the reconciliation difference is the 2-decimal rounding of actual
minus expected closing, the verdict is Reconciled exactly when that
rounded difference is zero, and a nonzero difference yields the
Discrepant value of the total verdict function (no exception path exists
in the model). -/
theorem reconciliation_verdict (opnB opnC : ℚ) (dfBank dfCash : List CsvRow) :
    (verdict opnB opnC dfBank dfCash = Verdict.Reconciled ↔
        round2 (actual_closing opnB opnC dfBank dfCash -
          expected_closing opnB opnC dfBank dfCash) = 0) ∧
      (verdict opnB opnC dfBank dfCash = Verdict.Discrepant ↔
        round2 (actual_closing opnB opnC dfBank dfCash -
          expected_closing opnB opnC dfBank dfCash) ≠ 0) := by
  by_cases h : round2 (actual_closing opnB opnC dfBank dfCash -
      expected_closing opnB opnC dfBank dfCash) = 0 <;>
    simp [verdict, diff, h]

end Trustact
